import Mathlib

/-!
Formal model of the terminal animation engine and floating window controller
of src/script.js (classes TerminalAnimator and TerminalWindow).

Every definition is a shallow embedding of the corresponding JavaScript,
with the source line numbers noted next to each definition.  DOM elements
are modelled by records holding exactly the fields the script reads or
writes (textContent, className, children, style.display, style geometry).
-/

set_option autoImplicit false

/-- An entry of a sequence's outputs array (src/script.js lines 12-53).
The JS field named class is modelled as cls; both delay and class may be
absent on a line, hence Option. -/
structure OutputLine where
  text : String
  delay : Option Nat
  cls : Option String
deriving DecidableEq

/-- A catalog entry: a command string plus its output lines
(src/script.js lines 12-53). -/
structure Sequence where
  command : String
  outputs : List OutputLine
deriving DecidableEq

/-- The literal catalog terminalSequences (src/script.js lines 12-53). -/
def terminalSequences : List Sequence :=
  [ { command := "chetech-agent --task \"analyze codebase\"",
      outputs :=
        [ { text := "> Initializing secure, offline AI environment...", delay := some 300, cls := none },
          { text := "> Loading local LLM (no cloud dependencies)...", delay := some 600, cls := none },
          { text := "> Scanning repository structure...", delay := some 800, cls := none },
          { text := "> Found 247 source files across 12 modules", delay := some 400, cls := some "info" },
          { text := "> Ready for queries.", delay := some 300, cls := some "success" } ] },
    { command := "chetech-agent --rag \"query legacy docs\"",
      outputs :=
        [ { text := "> Connecting to RAG pipeline...", delay := some 300, cls := none },
          { text := "> Indexing 1,247 legacy documentation files...", delay := some 700, cls := none },
          { text := "> Building semantic embeddings...", delay := some 600, cls := none },
          { text := "> Vector store ready (local, encrypted)", delay := some 400, cls := some "info" },
          { text := "> Pipeline operational. Zero data leaves your network.", delay := some 400, cls := some "success" } ] },
    { command := "chetech-agent --refactor \"optimize module\"",
      outputs :=
        [ { text := "> Analyzing code patterns...", delay := some 400, cls := none },
          { text := "> Identifying optimization opportunities...", delay := some 500, cls := none },
          { text := "> Generating refactored code...", delay := some 600, cls := none },
          { text := "> Running test suite... 47/47 passed", delay := some 700, cls := some "success" },
          { text := "> Refactoring complete. PR ready for review.", delay := some 300, cls := some "success" } ] },
    { command := "chetech-agent --mcp \"connect tools\"",
      outputs :=
        [ { text := "> Starting MCP server...", delay := some 300, cls := none },
          { text := "> Registering tools: git, jira, confluence", delay := some 500, cls := none },
          { text := "> Establishing secure connections...", delay := some 600, cls := none },
          { text := "> All tools connected via Model Context Protocol", delay := some 400, cls := some "info" },
          { text := "> AI assistant now has full tool access.", delay := some 300, cls := some "success" } ] } ]

/-- JS expression output.delay || 300 (src/script.js line 136): 0 and
undefined are falsy, so both fall back to the default 300. -/
def effDelay (d : Option Nat) : Nat :=
  match d with
  | none => 300
  | some n => if n = 0 then 300 else n

/-- JS expression output.class || two-quote empty string (src/script.js
line 137): an absent class yields the empty string. -/
def effClass (c : Option String) : String :=
  match c with
  | none => ""
  | some s => s

/-- The className computed by addOutputLine (src/script.js line 107):
the string output-line, extended by a space and the given class when the
class string is truthy (non-empty). -/
def lineClassName (c : String) : String :=
  if c = "" then "output-line" else "output-line " ++ c

/-- The command element: the script only touches its textContent
(src/script.js lines 84, 89, 118). -/
structure CommandEl where
  textContent : String
deriving DecidableEq

/-- One appended output div (src/script.js lines 106-109). -/
structure OutputDiv where
  className : String
  textContent : String
deriving DecidableEq

/-- The output container element: the script clears it and appends child
divs (src/script.js lines 109, 117). -/
structure OutputEl where
  children : List OutputDiv
deriving DecidableEq

/-- The cursor element: the script only touches its style.display
(src/script.js line 122). -/
structure CursorEl where
  display : String
deriving DecidableEq

/-- TerminalAnimator's fields (src/script.js lines 59-66): the three
nullable render targets plus the playback cursor state. -/
structure AnimState where
  commandEl : Option CommandEl
  outputEl : Option OutputEl
  cursorEl : Option CursorEl
  currentSequence : Nat
  isAnimating : Bool
  isPaused : Bool
deriving DecidableEq

/-- setElements (src/script.js lines 68-72): assigns the three element
references and nothing else. -/
def setElements (c : Option CommandEl) (o : Option OutputEl) (cu : Option CursorEl)
    (s : AnimState) : AnimState :=
  { s with commandEl := c, outputEl := o, cursorEl := cu }

/-- pause (src/script.js lines 74-76). -/
def animPause (s : AnimState) : AnimState :=
  { s with isPaused := true }

/-- resume (src/script.js lines 78-80). -/
def animResume (s : AnimState) : AnimState :=
  { s with isPaused := false }

/-- The accumulation loop of typeText (src/script.js lines 85-91):
starting from the current textContent, append the characters one at a
time. -/
def typeChars (acc : String) : List Char → String
  | [] => acc
  | ch :: rest => typeChars (acc.push ch) rest

/-- Final state of typeText on an element (src/script.js lines 82-92),
for an uninterrupted (never paused) run: a null element is left untouched
and nothing is written; otherwise the element is cleared (line 84) and the
text is appended character by character (lines 85-91). -/
def typeTextFinal (el : Option CommandEl) (text : String) : Option CommandEl :=
  match el with
  | none => none
  | some _ => some ⟨typeChars "" text.data⟩

/-- addOutputLine (src/script.js lines 104-110): with a null output target
it returns without writing; otherwise it appends one div carrying the text
and the computed className. -/
def addOutputLine (text : String) (className : String) (s : AnimState) : AnimState :=
  match s.outputEl with
  | none => s
  | some o => { s with outputEl := some ⟨o.children ++ [⟨lineClassName className, text⟩]⟩ }

/-- Lines 120-123 of runSequence: if the cursor element is bound, set its
display to inline. -/
def showCursor (s : AnimState) : AnimState :=
  match s.cursorEl with
  | none => s
  | some _ => { s with cursorEl := some ⟨"inline"⟩ }

/-- Lines 116-118 of runSequence: clear the output container and the
command element (inside the guard both are known non-null; the map form is
the identity on a null slot). -/
def clearSurfaces (s : AnimState) : AnimState :=
  { s with outputEl := s.outputEl.map (fun _ => ⟨[]⟩),
           commandEl := s.commandEl.map (fun _ => ⟨""⟩) }

/-- Final state of one uninterrupted (never paused) runSequence call
(src/script.js lines 112-144): the guard of line 113 returns early when
already animating or when the command or output target is null; otherwise
set isAnimating, clear both surfaces, show the cursor, type the command,
append every output line in order, and clear isAnimating.  The sleeps of
lines 129, 136, 141 have no effect on the final state. -/
def runSequenceFinal (seq : Sequence) (s : AnimState) : AnimState :=
  if s.isAnimating then s
  else
    match s.commandEl, s.outputEl with
    | some _, some _ =>
      let s1 := { s with isAnimating := true }
      let s2 := clearSurfaces s1
      let s3 := showCursor s2
      let s4 := { s3 with commandEl := typeTextFinal s3.commandEl seq.command }
      let s5 := seq.outputs.foldl
        (fun st out => addOutputLine out.text (effClass out.cls) st) s4
      { s5 with isAnimating := false }
    | _, _ => s

/-- The index advance of the start loop (src/script.js line 150). -/
def advanceSequence (cat : List Sequence) (i : Nat) : Nat :=
  (i + 1) % cat.length

/-- One iteration of the start loop (src/script.js lines 146-155): when
not paused and both targets are bound, run the current sequence and
advance the index modulo the catalog length; otherwise only sleep (no
state change).  The catalog lookup uses a default that is never selected
along the loop, since the index stays below the catalog length by the
modulo of line 150. -/
def startIter (cat : List Sequence) (s : AnimState) : AnimState :=
  if s.isPaused = false ∧ s.commandEl.isSome = true ∧ s.outputEl.isSome = true then
    let s' := runSequenceFinal (cat.getD s.currentSequence ⟨"", []⟩) s
    { s' with currentSequence := advanceSequence cat s'.currentSequence }
  else s

/-!
Timed trace of one uninterrupted run, on a virtual clock.  Every sleep of
the source is a literal duration; each surface write becomes an event
stamped with the virtual instant at which the JavaScript statement runs.
-/

/-- One observable surface write of runSequence. -/
inductive TraceEv where
  | clearOutput : TraceEv
  | clearCommand : TraceEv
  | cursorShown : TraceEv
  | setCommand : String → TraceEv
  | appendLine : String → String → TraceEv
deriving DecidableEq

/-- An event stamped with its virtual time in milliseconds. -/
structure Timed where
  time : Nat
  ev : TraceEv
deriving DecidableEq

/-- Write events of typeText (src/script.js lines 82-92) starting at t0:
the loop writes character i and only then sleeps for the speed, so the
i-th write lands at t0 + speed * i and leaves the accumulated prefix of
length i+1 on the surface. -/
def typeTextEvents (t0 speed : Nat) (text : String) : List Timed :=
  (List.range text.length).map
    (fun i => ⟨t0 + speed * i, TraceEv.setCommand (text.take (i + 1))⟩)

/-- The instant at which typeText returns: after the final sleep
(src/script.js line 90). -/
def typeTextEnd (t0 speed : Nat) (text : String) : Nat :=
  t0 + speed * text.length

/-- The reveal loop of runSequence (src/script.js lines 132-138), never
paused: each line first sleeps its effective delay, then is appended.
Returns the events plus the instant the loop finishes. -/
def revealEvents (t : Nat) : List OutputLine → List Timed × Nat
  | [] => ([], t)
  | out :: rest =>
    let t' := t + effDelay out.delay
    let (evs, tEnd) := revealEvents t' rest
    (⟨t', TraceEv.appendLine out.text (lineClassName (effClass out.cls))⟩ :: evs, tEnd)

/-- Timed trace of one uninterrupted runSequence call with bound targets
(src/script.js lines 112-144), started at t0: clear both surfaces and show
the cursor at t0, type the command at 40ms per character, sleep 400ms,
reveal the outputs, sleep 8000ms; the second component is the instant the
call returns. -/
def runSequenceTrace (t0 : Nat) (seq : Sequence) : List Timed × Nat :=
  let head : List Timed :=
    [⟨t0, TraceEv.clearOutput⟩, ⟨t0, TraceEv.clearCommand⟩, ⟨t0, TraceEv.cursorShown⟩]
  let typeEvs := typeTextEvents t0 40 seq.command
  let t1 := typeTextEnd t0 40 seq.command
  let (outEvs, t2) := revealEvents (t1 + 400) seq.outputs
  (head ++ typeEvs ++ outEvs, t2 + 8000)

/-- The command surface's content at instant t, sampled after every write
stamped at or before t has been applied (the event list is in program
order). -/
def commandAt (evs : List Timed) (t : Nat) : String :=
  evs.foldl
    (fun acc e =>
      if e.time ≤ t then
        match e.ev with
        | TraceEv.setCommand str => str
        | TraceEv.clearCommand => ""
        | _ => acc
      else acc) ""

/-!
Interleaving model of one runSequence call under pause and resume.  The
run is cut at its await points: each tick performs the synchronous work up
to the next await, and pause or resume can be interposed between any two
ticks (they are synchronous event-handler calls).  The key structural
facts from the source: typeText checks isPaused immediately before each
character write (lines 86-88), while the reveal loop checks isPaused
before the per-line sleep, with the append following the sleep
unconditionally (lines 133-137).
-/

/-- Control point inside one runSequence call.  typing i: about to check
pause and write character i (lines 86-89).  settle: the 400ms sleep of
line 129.  revealCheck j: about to check pause before line j (lines
133-135).  revealSleep j: the pause check for line j has passed; the
line will be appended when the delay elapses (lines 136-137).  idlePause:
the 8000ms sleep of line 141.  finished: isAnimating cleared. -/
inductive RSPhase where
  | typing : Nat → RSPhase
  | settle : RSPhase
  | revealCheck : Nat → RSPhase
  | revealSleep : Nat → RSPhase
  | idlePause : RSPhase
  | finished : RSPhase
deriving DecidableEq

/-- Interleaving configuration: control point, the two surfaces, and the
animator's isPaused flag.  The command surface is kept as a character
list. -/
structure RSConfig where
  phase : RSPhase
  cmdSurface : List Char
  outSurface : List OutputDiv
  paused : Bool
deriving DecidableEq

/-- The div appended for one output line (src/script.js lines 136-137 and
104-110). -/
def mkLine (out : OutputLine) : OutputDiv :=
  ⟨lineClassName (effClass out.cls), out.text⟩

/-- One tick of the run: the synchronous work at the current control
point.  A paused configuration blocks at the two checkpoints (before a
character write, and before a line's delay) but nowhere else; in
particular a revealSleep tick appends its line even while paused, because
the source's pause check for that line already passed before the delay
started (lines 133-137). -/
def rsStep (cmd : List Char) (outs : List OutputLine) (c : RSConfig) : RSConfig :=
  match c.phase with
  | RSPhase.typing i =>
    if h : i < cmd.length then
      if c.paused then c
      else { c with cmdSurface := c.cmdSurface ++ [cmd.get ⟨i, h⟩],
                    phase := RSPhase.typing (i + 1) }
    else { c with phase := RSPhase.settle }
  | RSPhase.settle => { c with phase := RSPhase.revealCheck 0 }
  | RSPhase.revealCheck j =>
    if j < outs.length then
      if c.paused then c
      else { c with phase := RSPhase.revealSleep j }
    else { c with phase := RSPhase.idlePause }
  | RSPhase.revealSleep j =>
    match outs.get? j with
    | some out => { c with outSurface := c.outSurface ++ [mkLine out],
                           phase := RSPhase.revealCheck (j + 1) }
    | none => { c with phase := RSPhase.revealCheck (j + 1) }
  | RSPhase.idlePause => { c with phase := RSPhase.finished }
  | RSPhase.finished => c

/-- An action of the single-threaded timeline: a pause() call, a resume()
call (src/script.js lines 74-80), or letting the run proceed to its next
await point. -/
inductive RSAct where
  | pause : RSAct
  | resume : RSAct
  | tick : RSAct
deriving DecidableEq

/-- Apply one action to a configuration. -/
def applyAct (cmd : List Char) (outs : List OutputLine) (c : RSConfig) : RSAct → RSConfig
  | RSAct.pause => { c with paused := true }
  | RSAct.resume => { c with paused := false }
  | RSAct.tick => rsStep cmd outs c

/-- The configuration right after runSequence cleared both surfaces
(lines 117-118): about to write character 0, unpaused (the start loop only
calls runSequence when isPaused is false, line 148). -/
def initRS : RSConfig :=
  ⟨RSPhase.typing 0, [], [], false⟩

/-- Run a list of actions from the initial configuration. -/
def execRS (cmd : List Char) (outs : List OutputLine) (acts : List RSAct) : RSConfig :=
  acts.foldl (applyAct cmd outs) initRS

/-- Number of characters already written at a control point (n is the
command length). -/
def typedCount (n : Nat) : RSPhase → Nat
  | RSPhase.typing i => i
  | _ => n

/-- Number of output lines already appended at a control point (m is the
number of output lines). -/
def revealedCount (m : Nat) : RSPhase → Nat
  | RSPhase.typing _ => 0
  | RSPhase.settle => 0
  | RSPhase.revealCheck j => j
  | RSPhase.revealSleep j => j
  | RSPhase.idlePause => m
  | RSPhase.finished => m

/-- Reachable control points keep their indices in range. -/
def phaseOK (n m : Nat) : RSPhase → Prop
  | RSPhase.typing i => i ≤ n
  | RSPhase.settle => True
  | RSPhase.revealCheck j => j ≤ m
  | RSPhase.revealSleep j => j < m
  | RSPhase.idlePause => True
  | RSPhase.finished => True

/-- Run invariant: the two surfaces always hold exactly the prefix of the
command, respectively of the output lines, counted by the control point. -/
def RSInv (cmd : List Char) (outs : List OutputLine) (c : RSConfig) : Prop :=
  phaseOK cmd.length outs.length c.phase ∧
  c.cmdSurface = cmd.take (typedCount cmd.length c.phase) ∧
  c.outSurface = (outs.take (revealedCount outs.length c.phase)).map mkLine

/-!
Model of TerminalWindow (src/script.js lines 161-512).  The modelled
fields are exactly those the lifecycle methods read or write: the winbox
handle's existence and shown/hidden state, the three mode flags, the
pending auto-reopen timer, the reopen button's visibility, the dock chip,
the panel's inline style geometry, the saved geometry snapshot, and the
animator's isPaused flag (written through animator.pause and
animator.resume).
-/

/-- The inline style fields of the panel element that toggleMaximize reads
and writes (src/script.js lines 441-463), plus the max class membership. -/
structure WinStyle where
  position : String
  left : String
  top : String
  width : String
  height : String
  hasMaxClass : Bool
deriving DecidableEq

/-- The geometry snapshot savedPosition (src/script.js lines 450-455). -/
structure SavedPosition where
  left : String
  top : String
  width : String
  height : String
deriving DecidableEq

/-- TerminalWindow's fields (src/script.js lines 162-174) restricted to
what the lifecycle methods touch.  winbox records whether the handle is
non-null (it is assigned in createWindow, line 238, and never nulled by
this script); visible records shown versus hidden (winbox.show and
winbox.hide); animPaused is the animator's isPaused flag. -/
structure WindowState where
  winbox : Bool
  visible : Bool
  isMinimized : Bool
  isMaximized : Bool
  isClosed : Bool
  reopenTimeout : Bool
  reopenBtnVisible : Bool
  dockShown : Bool
  style : WinStyle
  savedPosition : Option SavedPosition
  animPaused : Bool
deriving DecidableEq

/-- The auto-reopen delay of close (src/script.js line 407). -/
def autoReopenDelayMs : Nat := 8000

/-- close (src/script.js lines 393-409): inside the guard winbox and not
already closed, pause the animator, hide the panel, set the closed flag,
show the reopen button, and arm the one-shot auto-reopen timer. -/
def close (s : WindowState) : WindowState :=
  if s.winbox = true ∧ s.isClosed = false then
    { s with animPaused := true, visible := false, isClosed := true,
             reopenBtnVisible := true, reopenTimeout := true }
  else s

/-- minimize (src/script.js lines 411-420): inside the guard winbox and
not already minimized, pause the animator, hide the panel, set the
minimized flag, and create the dock chip. -/
def minimize (s : WindowState) : WindowState :=
  if s.winbox = true ∧ s.isMinimized = false then
    { s with animPaused := true, visible := false, isMinimized := true,
             dockShown := true }
  else s

/-- restore (src/script.js lines 422-431): inside the guard winbox and
minimized, show the panel, clear the minimized flag, resume the animator,
and remove the dock chip. -/
def restore (s : WindowState) : WindowState :=
  if s.winbox = true ∧ s.isMinimized = true then
    { s with visible := true, isMinimized := false, animPaused := false,
             dockShown := false }
  else s

/-- The style toggleMaximize installs on entering maximized
(src/script.js lines 457-463): fixed position pinned below the 72px nav
bar, full viewport width and remaining height, plus the max class. -/
def maximizedStyle : WinStyle :=
  ⟨"fixed", "0px", "72px", "100vw", "calc(100vh - 72px)", true⟩

/-- toggleMaximize (src/script.js lines 433-466).  When maximized, write
the four saved geometry fields back to the style, force absolute
positioning, drop the max class, and clear the flag; reading the snapshot
through Option mirrors the nullable savedPosition field (the none branch
would be a TypeError in the source and is unreachable, since isMaximized
is only ever set together with a snapshot).  When not maximized, snapshot
the four current style fields, install the maximized style, and set the
flag. -/
def toggleMaximize (s : WindowState) : WindowState :=
  if s.winbox = false then s
  else if s.isMaximized = true then
    match s.savedPosition with
    | some p =>
      { s with style := ⟨"absolute", p.left, p.top, p.width, p.height, false⟩,
               isMaximized := false }
    | none => s
  else
    { s with savedPosition :=
               some ⟨s.style.left, s.style.top, s.style.width, s.style.height⟩,
             style := maximizedStyle, isMaximized := true }

/-- createWindow's effect on the modelled fields (src/script.js lines
198-285): a fresh winbox handle is built and shown, the panel receives the
host-computed initial geometry (passed here as the parameter g, since it
depends on the viewport), connectAnimator resumes the animator (line 314),
the reopen button is hidden (line 283), and the closed flag is cleared
(line 284). -/
def createWindow (g : WinStyle) (s : WindowState) : WindowState :=
  { s with winbox := true, visible := true, style := g,
           reopenBtnVisible := false, isClosed := false, animPaused := false }

/-- reopen (src/script.js lines 468-484): cancel any pending auto-reopen
timer; then, with a live winbox handle, show the panel, clear the closed
flag, hide the reopen button, and resume the animator; with a destroyed
handle, rebuild the window (dead code in this script, since winbox is
never nulled). -/
def reopen (g : WinStyle) (s : WindowState) : WindowState :=
  let s1 := { s with reopenTimeout := false }
  if s1.winbox = true then
    { s1 with visible := true, isClosed := false, reopenBtnVisible := false,
              animPaused := false }
  else createWindow g s1

/-- The auto-reopen timer callback (src/script.js lines 403-407): when it
fires with the window still closed, call reopen; otherwise do nothing.
The event loop only runs it while the armed timer was not cancelled. -/
def reopenTimerFire (g : WinStyle) (s : WindowState) : WindowState :=
  if s.isClosed = true then reopen g s else s

/-- A representative desktop geometry for concrete states (the lifecycle
claims do not depend on the particular strings). -/
def g0 : WinStyle := ⟨"absolute", "100px", "50px", "540px", "380px", false⟩

/-- The controller state right after construction (src/script.js lines
162-176 followed by createWindow): all flags false, no timer, no dock, no
snapshot, panel shown, animator running. -/
def initWindowState (g : WinStyle) : WindowState :=
  { winbox := true, visible := true, isMinimized := false, isMaximized := false,
    isClosed := false, reopenTimeout := false, reopenBtnVisible := false,
    dockShown := false, style := g, savedPosition := none, animPaused := false }

/-! Helper lemmas about the animator model. -/

theorem typeChars_eq (l : List Char) (acc : String) : typeChars acc l = ⟨acc.data ++ l⟩ := by
  induction l generalizing acc with
  | nil => simp [typeChars]
  | cons ch rest ih =>
    simp [typeChars, ih, String.push]

theorem typeTextFinal_some (e : CommandEl) (text : String) :
    typeTextFinal (some e) text = some ⟨text⟩ := by
  simp [typeTextFinal, typeChars_eq]

theorem string_append_assoc (a b c : String) : a ++ b ++ c = a ++ (b ++ c) := by
  apply String.ext
  simp [String.data_append, List.append_assoc]

theorem mkLine_eq (out : OutputLine) :
    mkLine out =
      ⟨"output-line" ++
        (match out.cls with
         | none => ""
         | some c => if c = "" then "" else " " ++ c), out.text⟩ := by
  cases h : out.cls with
  | none => simp [mkLine, lineClassName, effClass, h]
  | some c =>
    by_cases hc : c = ""
    · simp [mkLine, lineClassName, effClass, h, hc]
    · simp only [mkLine, lineClassName, effClass, h, hc, if_neg hc]
      refine congrArg (fun cn => OutputDiv.mk cn out.text) ?_
      have : ("output-line " : String) = "output-line" ++ " " := by
        apply String.ext; simp [String.data_append]
      rw [this, string_append_assoc]
      simp

theorem foldAdd_eq (outs : List OutputLine) (s : AnimState) (o : OutputEl)
    (ho : s.outputEl = some o) :
    outs.foldl (fun st out => addOutputLine out.text (effClass out.cls) st) s
      = { s with outputEl := some ⟨o.children ++ outs.map mkLine⟩ } := by
  induction outs generalizing s o with
  | nil =>
    simp only [List.foldl_nil, List.map_nil, List.append_nil]
    cases o with
    | mk ch => rw [← ho]
  | cons out rest ih =>
    simp only [List.foldl_cons]
    have h1 : addOutputLine out.text (effClass out.cls) s
        = { s with outputEl := some ⟨o.children ++ [mkLine out]⟩ } := by
      simp [addOutputLine, ho, mkLine]
    rw [h1, ih _ ⟨o.children ++ [mkLine out]⟩ rfl]
    simp

theorem showCursor_eq (s : AnimState) :
    showCursor s = { s with cursorEl := s.cursorEl.map (fun _ => ⟨"inline"⟩) } := by
  cases h : s.cursorEl with
  | none =>
    simp only [showCursor, h, Option.map_none']
    rw [← h]
  | some cu => simp [showCursor, h]

theorem runSequenceFinal_eq (seq : Sequence) (s : AnimState) (ce : CommandEl)
    (oe : OutputEl) (hA : s.isAnimating = false) (hce : s.commandEl = some ce)
    (hoe : s.outputEl = some oe) :
    runSequenceFinal seq s =
      { s with commandEl := some ⟨seq.command⟩,
               outputEl := some ⟨seq.outputs.map mkLine⟩,
               cursorEl := s.cursorEl.map (fun _ => ⟨"inline"⟩),
               isAnimating := false } := by
  rw [runSequenceFinal, hA]
  simp only [Bool.false_eq_true, if_false]
  rw [hce, hoe]
  simp only []
  rw [showCursor_eq]
  simp only [clearSurfaces, hce, hoe, Option.map_some']
  rw [typeTextFinal_some]
  rw [foldAdd_eq _ _ ⟨[]⟩ rfl]
  simp

/-- A concrete bound animator state: both surfaces bound and empty, cursor
bound but hidden, not animating, not paused. -/
def animBound : AnimState :=
  ⟨some ⟨""⟩, some ⟨[]⟩, some ⟨"none"⟩, 0, false, false⟩

/-- C1: for every sequence in the catalog, one complete unpaused run of
runSequence with bound targets leaves the command surface's text exactly
equal to the literal command string, and the output surface holding
exactly one line per output in catalog order, each line's text equal to
the output's text and its class equal to output-line extended by the
line's style tag when one is present. -/
theorem c1_runSequence_full_output (seq : Sequence) (hseq : seq ∈ terminalSequences)
    (s : AnimState) (hA : s.isAnimating = false)
    (hc : s.commandEl.isSome = true) (ho : s.outputEl.isSome = true) :
    (runSequenceFinal seq s).commandEl = some ⟨seq.command⟩ ∧
    (runSequenceFinal seq s).outputEl =
      some ⟨seq.outputs.map (fun out =>
        ⟨"output-line" ++
          (match out.cls with
           | none => ""
           | some c => if c = "" then "" else " " ++ c), out.text⟩)⟩ := by
  obtain ⟨ce, hce⟩ := Option.isSome_iff_exists.mp hc
  obtain ⟨oe, hoe⟩ := Option.isSome_iff_exists.mp ho
  rw [runSequenceFinal_eq seq s ce oe hA hce hoe]
  refine ⟨rfl, ?_⟩
  have : mkLine = fun out : OutputLine =>
      (⟨"output-line" ++
        (match out.cls with
         | none => ""
         | some c => if c = "" then "" else " " ++ c), out.text⟩ : OutputDiv) :=
    funext mkLine_eq
  simp [this]

/-- Witness for C1 at the first catalog sequence and a concrete bound
state. -/
theorem c1_witness :
    (runSequenceFinal (terminalSequences.headD ⟨"", []⟩) animBound).commandEl
        = some ⟨(terminalSequences.headD ⟨"", []⟩).command⟩ ∧
    (runSequenceFinal (terminalSequences.headD ⟨"", []⟩) animBound).outputEl
        = some ⟨(terminalSequences.headD ⟨"", []⟩).outputs.map (fun out =>
            ⟨"output-line" ++
              (match out.cls with
               | none => ""
               | some c => if c = "" then "" else " " ++ c), out.text⟩)⟩ :=
  c1_runSequence_full_output (terminalSequences.headD ⟨"", []⟩) (by decide)
    animBound rfl rfl rfl

/-- The one-sequence catalog of the virtual-clock scenario: command run,
outputs a single line A with a 100ms delay. -/
def seqRun : Sequence := ⟨"run", [⟨"A", some 100, none⟩]⟩

/-- C2 counterexample: at t = 40ms the command surface does not read r.
typeText writes each character and then sleeps (src/script.js lines
89-90), so the second character lands exactly at t = 40ms and the surface
reads ru there; it reads r only on the interval strictly before 40ms. -/
theorem c2_char_time_counterexample :
    commandAt (runSequenceTrace 0 seqRun).1 40 ≠ "r" := by decide

/-- C2 amended: under a virtual clock, with a catalog of one sequence with
command run and outputs a single line A with delay 100, the characters are
written at t = 0, 40, 80ms (the surface reads r on the interval up to
40ms, ru up to 80ms, run from 80ms on; the typing routine returns at
120ms); the settle pause then ends at t = 520ms; the output line A is
appended at t = 620ms; the run ends at t = 8620ms, at which point the
index wraps to 0 and the identical run repeats, time-shifted by 8620ms. -/
theorem c2_virtual_clock_trace :
    (runSequenceTrace 0 seqRun).1 =
      [⟨0, TraceEv.clearOutput⟩, ⟨0, TraceEv.clearCommand⟩, ⟨0, TraceEv.cursorShown⟩,
       ⟨0, TraceEv.setCommand "r"⟩, ⟨40, TraceEv.setCommand "ru"⟩,
       ⟨80, TraceEv.setCommand "run"⟩, ⟨620, TraceEv.appendLine "A" "output-line"⟩] ∧
    (runSequenceTrace 0 seqRun).2 = 8620 ∧
    commandAt (runSequenceTrace 0 seqRun).1 0 = "r" ∧
    commandAt (runSequenceTrace 0 seqRun).1 39 = "r" ∧
    commandAt (runSequenceTrace 0 seqRun).1 40 = "ru" ∧
    commandAt (runSequenceTrace 0 seqRun).1 79 = "ru" ∧
    commandAt (runSequenceTrace 0 seqRun).1 80 = "run" ∧
    commandAt (runSequenceTrace 0 seqRun).1 120 = "run" ∧
    advanceSequence [seqRun] 0 = 0 ∧
    (runSequenceTrace 8620 seqRun).1 =
      [⟨8620, TraceEv.clearOutput⟩, ⟨8620, TraceEv.clearCommand⟩, ⟨8620, TraceEv.cursorShown⟩,
       ⟨8620, TraceEv.setCommand "r"⟩, ⟨8660, TraceEv.setCommand "ru"⟩,
       ⟨8700, TraceEv.setCommand "run"⟩, ⟨9240, TraceEv.appendLine "A" "output-line"⟩] ∧
    (runSequenceTrace 8620 seqRun).2 = 17240 := by
  refine ⟨by decide, by decide, by decide, by decide, by decide, by decide, by decide,
    by decide, by decide, by decide, by decide⟩

/-- C10: a per-line delay of 0 is falsy in the expression that picks the
reveal delay (src/script.js line 136), so a line with delay 0 waits the
default 300ms, exactly like an absent delay; the override takes effect
only for strictly positive values.  Concretely, for a sequence with an
empty command and one line B with delay 0, the append lands at
t = 400 + 300 = 700ms, not at 400ms. -/
theorem c10_zero_delay_default :
    effDelay (some 0) = 300 ∧ effDelay none = 300 ∧
    (∀ d : Nat, 0 < d → effDelay (some d) = d) ∧
    (runSequenceTrace 0 ⟨"", [⟨"B", some 0, none⟩]⟩).1 =
      [⟨0, TraceEv.clearOutput⟩, ⟨0, TraceEv.clearCommand⟩, ⟨0, TraceEv.cursorShown⟩,
       ⟨700, TraceEv.appendLine "B" "output-line"⟩] := by
  refine ⟨rfl, rfl, ?_, by decide⟩
  intro d hd
  simp [effDelay, Nat.pos_iff_ne_zero.mp hd]

/-- Witness for C10's positive-delay conjunct at the concrete delay 5. -/
theorem c10_witness :
    0 < 5 ∧ effDelay (some 5) = 5 :=
  ⟨by decide, (c10_zero_delay_default.2.2.1 5 (by decide))⟩

theorem rsStep_inv (cmd : List Char) (outs : List OutputLine) (c : RSConfig)
    (h : RSInv cmd outs c) : RSInv cmd outs (rsStep cmd outs c) := by
  obtain ⟨ph, cs, os, pa⟩ := c
  obtain ⟨hp, hc, ho⟩ := h
  cases ph with
  | typing i =>
    simp only [phaseOK, typedCount, revealedCount] at hp hc ho
    by_cases hi : i < cmd.length
    · by_cases hpa : pa = true
      · simp only [RSInv, rsStep, dif_pos hi, if_pos hpa]
        exact ⟨hp, hc, ho⟩
      · simp only [RSInv, rsStep, dif_pos hi, if_neg hpa]
        refine ⟨hi, ?_, ho⟩
        simp only [typedCount]
        rw [hc, List.take_succ]
        simp [List.getElem?_eq_getElem hi, List.get_eq_getElem]
    · simp only [RSInv, rsStep, dif_neg hi]
      have hin : i = cmd.length := Nat.le_antisymm hp (Nat.not_lt.mp hi)
      refine ⟨trivial, ?_, ho⟩
      simp only [typedCount]
      rw [hc, hin]
  | settle =>
    simp only [phaseOK, typedCount, revealedCount] at hp hc ho
    exact ⟨Nat.zero_le _, hc, ho⟩
  | revealCheck j =>
    simp only [phaseOK, typedCount, revealedCount] at hp hc ho
    by_cases hj : j < outs.length
    · by_cases hpa : pa = true
      · simp only [RSInv, rsStep, if_pos hj, if_pos hpa]
        exact ⟨hp, hc, ho⟩
      · simp only [RSInv, rsStep, if_pos hj, if_neg hpa]
        exact ⟨hj, hc, ho⟩
    · simp only [RSInv, rsStep, if_neg hj]
      have hjm : j = outs.length := Nat.le_antisymm hp (Nat.not_lt.mp hj)
      refine ⟨trivial, hc, ?_⟩
      simp only [revealedCount]
      rw [ho, hjm]
  | revealSleep j =>
    simp only [phaseOK, typedCount, revealedCount] at hp hc ho
    simp only [RSInv, rsStep, List.get?_eq_get hp]
    refine ⟨hp, hc, ?_⟩
    simp only [revealedCount]
    have htake : outs.take (j + 1) = outs.take j ++ [outs[j]] := by
      rw [List.take_succ]
      simp [List.getElem?_eq_getElem hp]
    rw [ho, htake]
    simp only [List.map_append, List.map_cons, List.map_nil, List.get_eq_getElem]
  | idlePause =>
    simp only [phaseOK, typedCount, revealedCount] at hp hc ho
    exact ⟨trivial, hc, ho⟩
  | finished =>
    exact ⟨hp, hc, ho⟩

theorem foldl_applyAct_inv (cmd : List Char) (outs : List OutputLine)
    (acts : List RSAct) (c : RSConfig) (h : RSInv cmd outs c) :
    RSInv cmd outs (acts.foldl (applyAct cmd outs) c) := by
  induction acts generalizing c with
  | nil => simpa using h
  | cons a rest ih =>
    simp only [List.foldl_cons]
    apply ih
    cases a with
    | pause => exact h
    | resume => exact h
    | tick => exact rsStep_inv cmd outs c h

theorem execRS_inv (cmd : List Char) (outs : List OutputLine) (acts : List RSAct) :
    RSInv cmd outs (execRS cmd outs acts) :=
  foldl_applyAct_inv cmd outs acts initRS ⟨Nat.zero_le _, rfl, rfl⟩

/-- C3 counterexample: a pause that lands during an output line's reveal
delay does not keep the surfaces unchanged until resume.  The reveal loop
of runSequence checks isPaused before the per-line sleep and appends after
it (src/script.js lines 133-137), so the line whose delay already started
is still appended while paused.  Concretely, for command go and one output
line A: after five ticks (two characters, settle, checkpoint, delay
started) followed by pause, the output surface is empty; one further tick
appends A with no resume in between. -/
theorem c3_inflight_write_counterexample :
    (execRS "go".data [⟨"A", some 100, none⟩]
      [RSAct.tick, RSAct.tick, RSAct.tick, RSAct.tick, RSAct.tick, RSAct.pause]).paused
        = true ∧
    (execRS "go".data [⟨"A", some 100, none⟩]
      [RSAct.tick, RSAct.tick, RSAct.tick, RSAct.tick, RSAct.tick, RSAct.pause]).outSurface
        = [] ∧
    (execRS "go".data [⟨"A", some 100, none⟩]
      [RSAct.tick, RSAct.tick, RSAct.tick, RSAct.tick, RSAct.tick, RSAct.pause,
       RSAct.tick]).paused = true ∧
    (execRS "go".data [⟨"A", some 100, none⟩]
      [RSAct.tick, RSAct.tick, RSAct.tick, RSAct.tick, RSAct.tick, RSAct.pause,
       RSAct.tick]).outSurface = [⟨"output-line", "A"⟩] := by
  refine ⟨by decide, by decide, by decide, by decide⟩

/-- C3 amended: under every interleaving of pause, resume and run
progress, the command surface is always exactly the prefix of the command
counted by the control point, and the output surface exactly the matching
prefix of the output lines - so after a resume the run continues with
precisely the next unwritten character or unappended line, never skipping
or repeating one.  While paused, the run blocks at the checkpoint before
each character write and at the checkpoint before each line's reveal
delay; the one write a pause cannot stop is a line whose reveal delay
already began (the in-flight append of lines 136-137). -/
theorem c3_pause_checkpoints (cmd : List Char) (outs : List OutputLine)
    (acts : List RSAct) :
    (execRS cmd outs acts).cmdSurface
        = cmd.take (typedCount cmd.length (execRS cmd outs acts).phase) ∧
    (execRS cmd outs acts).outSurface
        = (outs.take (revealedCount outs.length (execRS cmd outs acts).phase)).map mkLine ∧
    (∀ c : RSConfig, c.paused = true →
      (∀ i, c.phase = RSPhase.typing i → i < cmd.length → rsStep cmd outs c = c) ∧
      (∀ j, c.phase = RSPhase.revealCheck j → j < outs.length → rsStep cmd outs c = c)) := by
  refine ⟨(execRS_inv cmd outs acts).2.1, (execRS_inv cmd outs acts).2.2, ?_⟩
  intro c hpa
  constructor
  · intro i hph hi
    simp [rsStep, hph, hi, hpa]
  · intro j hph hj
    simp [rsStep, hph, hj, hpa]

/-- Witness for C3 at a concrete command, output list and action
schedule. -/
theorem c3_witness :
    (execRS "go".data [⟨"A", some 100, none⟩] [RSAct.tick, RSAct.pause]).cmdSurface
        = "go".data.take (typedCount "go".data.length
            (execRS "go".data [⟨"A", some 100, none⟩] [RSAct.tick, RSAct.pause]).phase) ∧
    (execRS "go".data [⟨"A", some 100, none⟩] [RSAct.tick, RSAct.pause]).outSurface
        = ([⟨"A", some 100, none⟩].take (revealedCount 1
            (execRS "go".data [⟨"A", some 100, none⟩]
              [RSAct.tick, RSAct.pause]).phase)).map mkLine ∧
    (∀ c : RSConfig, c.paused = true →
      (∀ i, c.phase = RSPhase.typing i → i < "go".data.length →
        rsStep "go".data [⟨"A", some 100, none⟩] c = c) ∧
      (∀ j, c.phase = RSPhase.revealCheck j → j < 1 →
        rsStep "go".data [⟨"A", some 100, none⟩] c = c)) :=
  c3_pause_checkpoints "go".data [⟨"A", some 100, none⟩] [RSAct.tick, RSAct.pause]

/-- C4 counterexample: the lifecycle flags are not mutually exclusive and
cross-mode calls are not no-ops.  From the freshly constructed state,
close() sets the closed flag; a subsequent minimize() checks only its own
flag (src/script.js line 412), so it proceeds and leaves both closed and
minimized true. -/
theorem c4_mutual_exclusion_counterexample :
    (minimize (close (initWindowState g0))).isClosed = true ∧
    (minimize (close (initWindowState g0))).isMinimized = true ∧
    minimize (close (initWindowState g0)) ≠ close (initWindowState g0) := by
  refine ⟨by decide, by decide, by decide⟩

/-- C4 amended: each lifecycle operation guards only re-entry into its own
mode - close is a no-op when already closed, minimize when already
minimized, restore unless minimized - but none of them guards against the
other modes, so three-way mutual exclusion is not enforced: minimize
called on a closed window proceeds and leaves both flags set. -/
theorem c4_own_mode_guards :
    (∀ s : WindowState, s.isClosed = true → close s = s) ∧
    (∀ s : WindowState, s.isMinimized = true → minimize s = s) ∧
    (∀ s : WindowState, s.isMinimized = false → restore s = s) ∧
    ((minimize (close (initWindowState g0))).isClosed = true ∧
     (minimize (close (initWindowState g0))).isMinimized = true) := by
  refine ⟨?_, ?_, ?_, by decide, by decide⟩
  · intro s h
    simp [close, h]
  · intro s h
    simp [minimize, h]
  · intro s h
    simp [restore, h]

/-- Witness for C4's guard conjuncts at concrete closed, minimized and
non-minimized states. -/
theorem c4_witness :
    ((close (initWindowState g0)).isClosed = true ∧
      close (close (initWindowState g0)) = close (initWindowState g0)) ∧
    ((minimize (initWindowState g0)).isMinimized = true ∧
      minimize (minimize (initWindowState g0)) = minimize (initWindowState g0)) ∧
    ((initWindowState g0).isMinimized = false ∧
      restore (initWindowState g0) = initWindowState g0) :=
  ⟨⟨by decide, c4_own_mode_guards.1 (close (initWindowState g0)) (by decide)⟩,
   ⟨by decide, c4_own_mode_guards.2.1 (minimize (initWindowState g0)) (by decide)⟩,
   ⟨by decide, c4_own_mode_guards.2.2.1 (initWindowState g0) (by decide)⟩⟩

/-- C5: from every non-maximized state with a live winbox handle, calling
toggleMaximize twice writes back exactly the four geometry fields
snapshotted before the first call: left, top, width and height of the
panel's style are restored verbatim. -/
theorem c5_toggleMaximize_twice (s : WindowState) (hw : s.winbox = true)
    (hm : s.isMaximized = false) :
    (toggleMaximize (toggleMaximize s)).style.left = s.style.left ∧
    (toggleMaximize (toggleMaximize s)).style.top = s.style.top ∧
    (toggleMaximize (toggleMaximize s)).style.width = s.style.width ∧
    (toggleMaximize (toggleMaximize s)).style.height = s.style.height := by
  have h1 : toggleMaximize s =
      { s with savedPosition :=
                 some ⟨s.style.left, s.style.top, s.style.width, s.style.height⟩,
               style := maximizedStyle, isMaximized := true } := by
    simp [toggleMaximize, hw, hm]
  rw [h1]
  simp [toggleMaximize, hw]

/-- Witness for C5 at the concrete freshly constructed state. -/
theorem c5_witness :
    (initWindowState g0).winbox = true ∧ (initWindowState g0).isMaximized = false ∧
    ((toggleMaximize (toggleMaximize (initWindowState g0))).style.left
        = (initWindowState g0).style.left ∧
     (toggleMaximize (toggleMaximize (initWindowState g0))).style.top
        = (initWindowState g0).style.top ∧
     (toggleMaximize (toggleMaximize (initWindowState g0))).style.width
        = (initWindowState g0).style.width ∧
     (toggleMaximize (toggleMaximize (initWindowState g0))).style.height
        = (initWindowState g0).style.height) :=
  ⟨rfl, rfl, c5_toggleMaximize_twice (initWindowState g0) rfl rfl⟩

/-- C6: close is a no-op when the window is already closed; otherwise
(with the winbox handle, which this script never nulls) it pauses the
animator, hides the panel, sets the closed flag, shows the reopen button,
and arms the 8000ms one-shot auto-reopen timer; when that timer fires it
reopens the window if and only if it is still closed - reopening shows
the panel, clears the closed flag, hides the button, resumes the
animator and clears the pending-timer state, and a fire on a no longer
closed window changes nothing. -/
theorem c6_close_spec :
    autoReopenDelayMs = 8000 ∧
    (∀ s : WindowState, s.isClosed = true → close s = s) ∧
    (∀ s : WindowState, s.winbox = true → s.isClosed = false →
      close s = { s with animPaused := true, visible := false, isClosed := true,
                         reopenBtnVisible := true, reopenTimeout := true }) ∧
    (∀ (g : WinStyle) (s : WindowState), s.isClosed = false → reopenTimerFire g s = s) ∧
    (∀ (g : WinStyle) (s : WindowState), s.winbox = true → s.isClosed = true →
      (reopenTimerFire g s).isClosed = false ∧ (reopenTimerFire g s).visible = true ∧
      (reopenTimerFire g s).animPaused = false ∧
      (reopenTimerFire g s).reopenBtnVisible = false ∧
      (reopenTimerFire g s).reopenTimeout = false) := by
  refine ⟨rfl, ?_, ?_, ?_, ?_⟩
  · intro s h
    simp [close, h]
  · intro s hw h
    simp [close, hw, h]
  · intro g s h
    simp [reopenTimerFire, h]
  · intro g s hw h
    simp [reopenTimerFire, reopen, h, hw]

/-- Witness for C6 at concrete closed and open states. -/
theorem c6_witness :
    autoReopenDelayMs = 8000 ∧
    close (close (initWindowState g0)) = close (initWindowState g0) ∧
    close (initWindowState g0)
      = { initWindowState g0 with
            animPaused := true
            visible := false
            isClosed := true
            reopenBtnVisible := true
            reopenTimeout := true } ∧
    reopenTimerFire g0 (initWindowState g0) = initWindowState g0 ∧
    ((reopenTimerFire g0 (close (initWindowState g0))).isClosed = false ∧
     (reopenTimerFire g0 (close (initWindowState g0))).visible = true ∧
     (reopenTimerFire g0 (close (initWindowState g0))).animPaused = false ∧
     (reopenTimerFire g0 (close (initWindowState g0))).reopenBtnVisible = false ∧
     (reopenTimerFire g0 (close (initWindowState g0))).reopenTimeout = false) :=
  ⟨c6_close_spec.1,
   c6_close_spec.2.1 (close (initWindowState g0)) (by decide),
   c6_close_spec.2.2.1 (initWindowState g0) rfl rfl,
   c6_close_spec.2.2.2.1 g0 (initWindowState g0) rfl,
   c6_close_spec.2.2.2.2 g0 (close (initWindowState g0)) (by decide) (by decide)⟩

/-- C7 counterexample: reopening before the timer fires does not always
leave the lifecycle in normal mode.  Maximize the freshly constructed
window, close it (which arms the timer), and reopen: the maximized flag is
still set, because reopen (src/script.js lines 468-484) never clears it. -/
theorem c7_reopen_mode_counterexample :
    (close (toggleMaximize (initWindowState g0))).reopenTimeout = true ∧
    (reopen g0 (close (toggleMaximize (initWindowState g0)))).isMaximized = true := by
  refine ⟨by decide, by decide⟩

/-- C7 amended: for every state in which close() has just armed the
auto-reopen timer from a window that was neither minimized nor maximized,
calling reopen() before the timer fires cancels the pending timer, shows
the panel, clears the closed flag, hides the reopen affordance, resumes
the animator, and leaves the lifecycle in normal mode (all three mode
flags false); when the window was maximized or minimized at close time,
reopen performs the same effects but that mode flag survives. -/
theorem c7_close_reopen_normal (g : WinStyle) (s : WindowState)
    (hw : s.winbox = true) (hc : s.isClosed = false)
    (hmin : s.isMinimized = false) (hmax : s.isMaximized = false) :
    (close s).reopenTimeout = true ∧
    reopen g (close s)
      = { s with reopenTimeout := false, visible := true, isClosed := false,
                 reopenBtnVisible := false, animPaused := false } ∧
    (reopen g (close s)).isMinimized = false ∧
    (reopen g (close s)).isMaximized = false := by
  have hcl : close s = { s with
      animPaused := true
      visible := false
      isClosed := true
      reopenBtnVisible := true
      reopenTimeout := true } := by
    simp [close, hw, hc]
  refine ⟨by rw [hcl], ?_, ?_, ?_⟩
  · rw [hcl]
    simp [reopen, hw]
  · rw [hcl]
    simp [reopen, hw, hmin]
  · rw [hcl]
    simp [reopen, hw, hmax]

/-- Witness for C7 at the concrete freshly constructed state. -/
theorem c7_witness :
    (initWindowState g0).winbox = true ∧ (initWindowState g0).isClosed = false ∧
    (initWindowState g0).isMinimized = false ∧ (initWindowState g0).isMaximized = false ∧
    ((close (initWindowState g0)).reopenTimeout = true ∧
     reopen g0 (close (initWindowState g0))
       = { initWindowState g0 with
             reopenTimeout := false
             visible := true
             isClosed := false
             reopenBtnVisible := false
             animPaused := false } ∧
     (reopen g0 (close (initWindowState g0))).isMinimized = false ∧
     (reopen g0 (close (initWindowState g0))).isMaximized = false) :=
  ⟨rfl, rfl, rfl, rfl, c7_close_reopen_normal g0 (initWindowState g0) rfl rfl rfl rfl⟩

/-- A concrete animator state with no bound targets (the constructor
state, src/script.js lines 59-66). -/
def animUnbound : AnimState := ⟨none, none, none, 0, false, false⟩

/-- C8 counterexample: setElements does not make the cursor surface
visible.  Binding a cursor element whose display is none leaves its
display none: the display is set to inline only at the start of each
runSequence call (src/script.js lines 120-123), not by setElements (lines
68-72). -/
theorem c8_setElements_cursor_counterexample :
    (setElements (some ⟨""⟩) (some ⟨[]⟩) (some ⟨"none"⟩) animUnbound).cursorEl
        = some ⟨"none"⟩ ∧
    (setElements (some ⟨""⟩) (some ⟨[]⟩) (some ⟨"none"⟩) animUnbound).cursorEl
        ≠ some ⟨"inline"⟩ := by
  refine ⟨by decide, by decide⟩

/-- C8 amended: setElements replaces the three render targets in one
assignment and leaves every playback-cursor field (currentSequence,
isAnimating, isPaused) unchanged; it does not touch the cursor surface's
visibility - the cursor is made visible at the start of each runSequence
call. -/
theorem c8_setElements_spec (c : Option CommandEl) (o : Option OutputEl)
    (cu : Option CursorEl) (s : AnimState) :
    (setElements c o cu s).commandEl = c ∧
    (setElements c o cu s).outputEl = o ∧
    (setElements c o cu s).cursorEl = cu ∧
    (setElements c o cu s).currentSequence = s.currentSequence ∧
    (setElements c o cu s).isAnimating = s.isAnimating ∧
    (setElements c o cu s).isPaused = s.isPaused ∧
    (∀ (seq : Sequence) (ce : CommandEl) (oe : OutputEl) (d : CursorEl),
      s.isAnimating = false → s.commandEl = some ce → s.outputEl = some oe →
      s.cursorEl = some d → (runSequenceFinal seq s).cursorEl = some ⟨"inline"⟩) := by
  refine ⟨rfl, rfl, rfl, rfl, rfl, rfl, ?_⟩
  intro seq ce oe d hA hce hoe hcu
  rw [runSequenceFinal_eq seq s ce oe hA hce hoe]
  simp [hcu]

/-- Witness for C8 at concrete targets and a concrete bound state. -/
theorem c8_witness :
    ((setElements (some ⟨"x"⟩) (some ⟨[]⟩) (some ⟨"n"⟩) animBound).commandEl
        = some ⟨"x"⟩ ∧
     (setElements (some ⟨"x"⟩) (some ⟨[]⟩) (some ⟨"n"⟩) animBound).isPaused
        = animBound.isPaused) ∧
    (runSequenceFinal seqRun animBound).cursorEl = some ⟨"inline"⟩ :=
  ⟨⟨(c8_setElements_spec (some ⟨"x"⟩) (some ⟨[]⟩) (some ⟨"n"⟩) animBound).1,
    (c8_setElements_spec (some ⟨"x"⟩) (some ⟨[]⟩) (some ⟨"n"⟩) animBound).2.2.2.2.2.1⟩,
   (c8_setElements_spec (some ⟨"x"⟩) (some ⟨[]⟩) (some ⟨"n"⟩) animBound).2.2.2.2.2.2
     seqRun ⟨""⟩ ⟨[]⟩ ⟨"none"⟩ rfl rfl rfl rfl⟩

/-- C9: every write operation tolerates unbound targets.  typeText with a
null element returns without writing (src/script.js line 83);
addOutputLine with a null output target returns the state unchanged (line
105); runSequence with either the command or the output target null
returns the state unchanged (line 113); one iteration of the start loop
with an unbound command or output target only sleeps, performing no
surface write (lines 148-152). -/
theorem c9_null_target_noop :
    (∀ text : String, typeTextFinal none text = none) ∧
    (∀ (text cn : String) (s : AnimState), s.outputEl = none →
      addOutputLine text cn s = s) ∧
    (∀ (seq : Sequence) (s : AnimState),
      s.commandEl = none ∨ s.outputEl = none → runSequenceFinal seq s = s) ∧
    (∀ (cat : List Sequence) (s : AnimState),
      s.commandEl = none ∨ s.outputEl = none → startIter cat s = s) := by
  refine ⟨fun _ => rfl, ?_, ?_, ?_⟩
  · intro text cn s h
    simp [addOutputLine, h]
  · intro seq s h
    by_cases hA : s.isAnimating = true
    · simp [runSequenceFinal, hA]
    · rcases h with hc | ho
      · cases hoe : s.outputEl with
        | none => simp [runSequenceFinal, hA, hc, hoe]
        | some oe => simp [runSequenceFinal, hA, hc, hoe]
      · cases hce : s.commandEl with
        | none => simp [runSequenceFinal, hA, hce, ho]
        | some ce => simp [runSequenceFinal, hA, hce, ho]
  · intro cat s h
    rcases h with hc | ho
    · simp [startIter, hc]
    · simp [startIter, ho]

/-- Witness for C9 at concrete unbound states. -/
theorem c9_witness :
    typeTextFinal none "hi" = none ∧
    animUnbound.outputEl = none ∧
    addOutputLine "x" "" animUnbound = animUnbound ∧
    runSequenceFinal seqRun animUnbound = animUnbound ∧
    startIter [seqRun] animUnbound = animUnbound :=
  ⟨c9_null_target_noop.1 "hi", rfl,
   c9_null_target_noop.2.1 "x" "" animUnbound rfl,
   c9_null_target_noop.2.2.1 seqRun animUnbound (Or.inl rfl),
   c9_null_target_noop.2.2.2 [seqRun] animUnbound (Or.inl rfl)⟩
